import Mathlib

/-!
Verification of the cookpad-py client library (src/cookpad) against its
natural-language specification.

The Python source is shallowly embedded: JSON-like Python values become the
inductive `PyVal`; the dynamic operations the decoders use (`dict.get`,
subscripting, the `in` operator, iteration, truthiness, `or`) become total
Lean functions returning `Except PyErr _` where the Python operation can
raise (`TypeError` / `AttributeError` / `KeyError`).  Each `parse_*`
function of src/cookpad/types.py is translated clause by clause, and the
HTTP-status triage and parameter construction of src/cookpad/client.py are
translated as pure functions over an explicit response record.
-/

/-- A JSON-like Python value (the decoders only ever receive values produced
by `json` decoding: `None`, `str`, `int`, `bool`, `list`, `dict`).
JSON numbers are modelled as integers; the upstream API only uses integer
numbers in the fields the claims touch. -/
inductive PyVal where
  | none
  | str (s : String)
  | int (n : Int)
  | bool (b : Bool)
  | list (xs : List PyVal)
  | dict (fields : List (String × PyVal))

/-- Exceptions the embedded dynamic operations can raise. -/
inductive PyErr where
  | typeError (msg : String)
  | attributeError (attr : String)
  | keyError (key : String)
deriving DecidableEq

/-- Python truthiness of a JSON-like value. -/
def PyVal.truthy : PyVal → Bool
  | .none => false
  | .str s => s ≠ ""
  | .int n => n ≠ 0
  | .bool b => b
  | .list xs => !xs.isEmpty
  | .dict fs => !fs.isEmpty

/-- Is this value a dict? -/
def PyVal.isDict : PyVal → Bool
  | .dict _ => true
  | _ => false

/-- First-match association lookup: Python dicts have unique keys, so this is
exactly `d[k]`-style key lookup on the embedded field list. -/
def lookupStr (k : String) : List (String × PyVal) → Option PyVal
  | [] => Option.none
  | (k2, v) :: rest => if k = k2 then some v else lookupStr k rest

/-- Value of `d.get(k)` on a dict with field list `fs`, as a total value-level
function: the stored value when the key is present (even when it is `None`),
`None` when absent. -/
def dictGot (fs : List (String × PyVal)) (k : String) : PyVal :=
  (lookupStr k fs).getD .none

/-- Value of `d.get(k, dflt)` on a dict with field list `fs`, as a total value-level
function. -/
def dictGotD (fs : List (String × PyVal)) (k : String) (dflt : PyVal) : PyVal :=
  (lookupStr k fs).getD dflt

mutual

/-- Python `==` on JSON-like values.  `True == 1` and `False == 0` hold in
Python; strings, `None`, lists and dicts compare structurally and
cross-type comparisons are `False`. -/
def pyEq : PyVal → PyVal → Bool
  | .none, .none => true
  | .str a, .str b => a == b
  | .int a, .int b => a == b
  | .bool a, .bool b => a == b
  | .int a, .bool b => a == (if b then (1 : Int) else 0)
  | .bool a, .int b => (if a then (1 : Int) else 0) == b
  | .list a, .list b => pyEqList a b
  | .dict a, .dict b => pyEqFields a b
  | _, _ => false

def pyEqList : List PyVal → List PyVal → Bool
  | [], [] => true
  | a :: as, b :: bs => pyEq a b && pyEqList as bs
  | _, _ => false

def pyEqFields : List (String × PyVal) → List (String × PyVal) → Bool
  | [], [] => true
  | (k, v) :: as, (k2, v2) :: bs => k == k2 && pyEq v v2 && pyEqFields as bs
  | _, _ => false

end

/-- Embeds `data.get(k, dflt)`: defined only on dicts; any other receiver raises
`AttributeError` (e.g. `None.get`, `"x".get`, `[].get`).  A key that is
present returns its value even when that value is `None`; the default is
used only when the key is absent. -/
def pyDictGet (v : PyVal) (k : String) (dflt : PyVal) : Except PyErr PyVal :=
  match v with
  | .dict fs => .ok ((lookupStr k fs).getD dflt)
  | _ => .error (.attributeError "get")

/-- Embeds `data.get(k)` — default `None`. -/
def pyGet (v : PyVal) (k : String) : Except PyErr PyVal :=
  pyDictGet v k .none

/-- Embeds `data[k]` with a string key: key lookup on dicts (raising `KeyError` when
absent); `TypeError` on every other receiver (string/list subscripts need an
integer index, `None`/numbers are not subscriptable). -/
def pySubscript (v : PyVal) (k : String) : Except PyErr PyVal :=
  match v with
  | .dict fs =>
    match lookupStr k fs with
    | some x => .ok x
    | Option.none => .error (.keyError k)
  | _ => .error (.typeError "not subscriptable with str key")

/-- Embeds `k in v` for a string `k`: key membership on dicts, substring test on
strings, element membership on lists; `TypeError` otherwise. -/
def pyContains (k : String) (v : PyVal) : Except PyErr Bool :=
  match v with
  | .dict fs => .ok (lookupStr k fs).isSome
  | .str s => .ok (if k = "" then true else (s.splitOn k).length > 1)
  | .list xs => .ok (xs.any (fun x => pyEq (.str k) x))
  | _ => .error (.typeError "argument not iterable")

/-- Embeds `for x in v`: lists iterate their elements, strings their characters,
dicts their keys; everything else raises `TypeError`. -/
def pyIter (v : PyVal) : Except PyErr (List PyVal) :=
  match v with
  | .list xs => .ok xs
  | .str s => .ok (s.toList.map (fun c => .str c.toString))
  | .dict fs => .ok (fs.map (fun p => PyVal.str p.1))
  | _ => .error (.typeError "not iterable")

/-- Python `a or b` (used as `data.get(k, "") or ""`). -/
def pyOr (a b : PyVal) : PyVal :=
  if a.truthy then a else b

/-- Python `str(x)` on scalars.  The decoders apply `str` only to the
image `id` field, which the API supplies as a string or integer; the textual
repr of container values is not modelled and returns `""`. -/
def pyStr : PyVal → String
  | .none => "None"
  | .str s => s
  | .int n => toString n
  | .bool b => if b then "True" else "False"
  | .list _ => ""
  | .dict _ => ""

/-- The recurring idiom `image_url = None; if img := ...: image_url =
img.get("url")` of `parse_user` / `parse_recipe` / `parse_comment`, applied
to the already-fetched `img` value. -/
def nestedUrl (img : PyVal) : Except PyErr PyVal :=
  if img.truthy then pyGet img "url" else .ok PyVal.none

/-- The recurring idiom `user = None; if user_data := ...: user =
parse_user(user_data)` of `parse_recipe` / `parse_comment`, applied to the
already-fetched `user_data` value.  (Forward declaration pattern: takes the
user parser as an argument so it can be defined before `parse_user`.) -/
def optNested (p : PyVal → Except PyErr α) (v : PyVal) :
    Except PyErr (Option α) :=
  if v.truthy then do
    let u ← p v
    .ok (some u)
  else
    .ok Option.none

-- ## Entities (src/cookpad/types.py dataclasses)
-- Fields that receive a raw `data.get(...)` result keep the dynamic type
-- `PyVal`, exactly as a Python dataclass stores whatever value it is given;
-- fields the decoders construct structurally (nested entities, lists) get
-- structural types.

structure Image where
  url : PyVal
  id : String
  filename : PyVal
  alt_text : PyVal

structure Ingredient where
  name : PyVal
  quantity : PyVal
  id : PyVal
  headline : PyVal
  sanitized_name : PyVal

structure Step where
  description : PyVal
  id : PyVal
  image_url : PyVal

structure User where
  id : PyVal
  name : PyVal
  profile_message : PyVal
  image_url : PyVal
  recipe_count : PyVal
  follower_count : PyVal
  followee_count : PyVal
  cookpad_id : PyVal
  href : PyVal

structure Recipe where
  id : PyVal
  title : PyVal
  story : PyVal
  serving : PyVal
  cooking_time : PyVal
  published_at : PyVal
  hall_of_fame : PyVal
  cooksnaps_count : PyVal
  image_url : PyVal
  ingredients : List Ingredient
  user : Option User
  advice : PyVal
  bookmarks_count : PyVal
  view_count : PyVal
  comments_count : PyVal
  steps : List Step
  href : PyVal
  country : PyVal
  language : PyVal
  premium : PyVal

structure Comment where
  id : PyVal
  body : PyVal
  created_at : PyVal
  label : PyVal
  user : Option User
  image_url : PyVal
  cursor : PyVal
  likes_count : PyVal
  replies_count : PyVal

structure SearchResponse where
  recipes : List Recipe
  total_count : PyVal
  next_page : PyVal
  raw : PyVal

structure CommentsResponse where
  comments : List Comment
  next_cursor : PyVal

structure UsersResponse where
  users : List User
  total_count : PyVal
  next_page : PyVal

-- ## Decoders (src/cookpad/types.py parse functions)

/-- Embeds `parse_image` (types.py:106-112). -/
def parse_image (data : PyVal) : Except PyErr Image := do
  let url ← pyDictGet data "url" (.str "")
  let idv ← pyDictGet data "id" (.str "")
  let filename ← pyDictGet data "filename" (.str "")
  let alt_text ← pyGet data "alt_text"
  .ok { url := url, id := pyStr idv, filename := filename, alt_text := alt_text }

/-- Embeds `parse_ingredient` (types.py:115-122). -/
def parse_ingredient (data : PyVal) : Except PyErr Ingredient := do
  let name ← pyDictGet data "name" (.str "")
  let quantity ← pyDictGet data "quantity" (.str "")
  let idv ← pyDictGet data "id" (.int 0)
  let headline ← pyDictGet data "headline" (.bool false)
  let sanitized_name ← pyDictGet data "sanitized_name" (.str "")
  .ok { name := name, quantity := quantity, id := idv,
        headline := headline, sanitized_name := sanitized_name }

/-- The attachment loop of `parse_step` (types.py:127-133):
`if "url" in att: image_url = att["url"]; break` then
`if img := att.get("image"): image_url = img.get("url"); break` —
note the second branch breaks on any truthy `image`, whether or not that
image carries a `url`. -/
def stepScan : List PyVal → Except PyErr PyVal
  | [] => .ok .none
  | att :: rest => do
    let hasUrl ← pyContains "url" att
    if hasUrl then
      pySubscript att "url"
    else
      let img ← pyGet att "image"
      if img.truthy then
        pyGet img "url"
      else
        stepScan rest

/-- Embeds `parse_step` (types.py:125-138). -/
def parse_step (data : PyVal) : Except PyErr Step := do
  let atts ← pyDictGet data "attachments" (.list [])
  let items ← pyIter atts
  let image_url ← stepScan items
  let description ← pyDictGet data "description" (.str "")
  let idv ← pyDictGet data "id" (.int 0)
  .ok { description := description, id := idv, image_url := image_url }

/-- Embeds `parse_user` (types.py:141-155). -/
def parse_user (data : PyVal) : Except PyErr User := do
  let img ← pyGet data "image"
  let image_url ← nestedUrl img
  let idv ← pyDictGet data "id" (.int 0)
  let name ← pyDictGet data "name" (.str "")
  let pm ← pyDictGet data "profile_message" (.str "")
  let recipe_count ← pyDictGet data "recipe_count" (.int 0)
  let follower_count ← pyDictGet data "follower_count" (.int 0)
  let followee_count ← pyDictGet data "followee_count" (.int 0)
  let cookpad_id ← pyDictGet data "cookpad_id" (.str "")
  let href ← pyDictGet data "href" (.str "")
  .ok { id := idv, name := name, profile_message := pyOr pm (.str ""),
        image_url := image_url, recipe_count := recipe_count,
        follower_count := follower_count, followee_count := followee_count,
        cookpad_id := cookpad_id, href := href }

/-- A Python list comprehension `[f(x) for x in xs]` over already-obtained
items, where `f` may raise. -/
def parseList (f : PyVal → Except PyErr α) : List PyVal → Except PyErr (List α)
  | [] => .ok []
  | x :: xs => do
    let a ← f x
    let as ← parseList f xs
    .ok (a :: as)

/-- Embeds `parse_recipe` (types.py:158-191). -/
def parse_recipe (data : PyVal) : Except PyErr Recipe := do
  let img ← pyGet data "image"
  let image_url ← nestedUrl img
  let user_data ← pyGet data "user"
  let user ← optNested parse_user user_data
  let ingrsRaw ← pyDictGet data "ingredients" (.list [])
  let ingrItems ← pyIter ingrsRaw
  let ingredients ← parseList parse_ingredient ingrItems
  let stepsRaw ← pyDictGet data "steps" (.list [])
  let stepItems ← pyIter stepsRaw
  let steps ← parseList parse_step stepItems
  let idv ← pyDictGet data "id" (.int 0)
  let title ← pyDictGet data "title" (.str "")
  let story ← pyDictGet data "story" (.str "")
  let serving ← pyDictGet data "serving" (.str "")
  let cooking_time ← pyGet data "cooking_time"
  let published_at ← pyDictGet data "published_at" (.str "")
  let hall_of_fame ← pyDictGet data "hall_of_fame" (.bool false)
  let cooksnaps_count ← pyDictGet data "cooksnaps_count" (.int 0)
  let advice ← pyDictGet data "advice" (.str "")
  let bookmarks_count ← pyDictGet data "bookmarks_count" (.int 0)
  let view_count ← pyDictGet data "view_count" (.int 0)
  let comments_count ← pyDictGet data "comments_count" (.int 0)
  let href ← pyDictGet data "href" (.str "")
  let country ← pyDictGet data "country" (.str "")
  let language ← pyDictGet data "language" (.str "")
  let premium ← pyDictGet data "premium" (.bool false)
  .ok { id := idv, title := title, story := pyOr story (.str ""),
        serving := pyOr serving (.str ""), cooking_time := cooking_time,
        published_at := published_at, hall_of_fame := hall_of_fame,
        cooksnaps_count := cooksnaps_count, image_url := image_url,
        ingredients := ingredients, user := user,
        advice := pyOr advice (.str ""), bookmarks_count := bookmarks_count,
        view_count := view_count, comments_count := comments_count,
        steps := steps, href := href, country := country,
        language := language, premium := premium }

/-- Embeds `parse_comment` (types.py:194-213). -/
def parse_comment (data : PyVal) : Except PyErr Comment := do
  let user_data ← pyGet data "user"
  let user ← optNested parse_user user_data
  let img ← pyGet data "image"
  let image_url ← nestedUrl img
  let idv ← pyDictGet data "id" (.int 0)
  let body ← pyDictGet data "body" (.str "")
  let created_at ← pyDictGet data "created_at" (.str "")
  let label ← pyDictGet data "label" (.str "")
  let cursor ← pyDictGet data "cursor" (.str "")
  let likes_count ← pyDictGet data "likes_count" (.int 0)
  let replies_count ← pyDictGet data "replies_count" (.int 0)
  .ok { id := idv, body := body, created_at := created_at, label := label,
        user := user, image_url := image_url, cursor := cursor,
        likes_count := likes_count, replies_count := replies_count }

/-- The list comprehension of `parse_search_response` (types.py:217-221):
keep exactly the items whose `type` tag equals `"search_results/recipe"`. -/
def searchFilter : List PyVal → Except PyErr (List Recipe)
  | [] => .ok []
  | item :: rest => do
    let t ← pyGet item "type"
    if pyEq t (.str "search_results/recipe") then
      let r ← parse_recipe item
      let rs ← searchFilter rest
      .ok (r :: rs)
    else
      searchFilter rest

/-- The `extra.get("links", {}).get("next")` / `next_link.get("page")`
pagination logic shared by `parse_search_response` and
`parse_users_response`. -/
def nextPageOf (extra : PyVal) : Except PyErr PyVal := do
  let links ← pyDictGet extra "links" (.dict [])
  let next_link ← pyGet links "next"
  if next_link.truthy then
    pyGet next_link "page"
  else
    .ok PyVal.none

/-- Embeds `parse_search_response` (types.py:216-235). -/
def parse_search_response (data : PyVal) : Except PyErr SearchResponse := do
  let resultRaw ← pyDictGet data "result" (.list [])
  let items ← pyIter resultRaw
  let recipes ← searchFilter items
  let extra ← pyDictGet data "extra" (.dict [])
  let total_count ← pyDictGet extra "total_count" (.int 0)
  let next_page ← nextPageOf extra
  .ok { recipes := recipes, total_count := total_count,
        next_page := next_page, raw := data }

/-- Embeds `next_cursor = None; if comments and comments[-1].cursor: next_cursor =
comments[-1].cursor` (types.py:241-243): Python truthiness of the list and
of the last cursor. -/
def lastCursor (comments : List Comment) : PyVal :=
  match comments.getLast? with
  | some c => if c.cursor.truthy then c.cursor else PyVal.none
  | Option.none => PyVal.none

/-- Embeds `parse_comments_response` (types.py:238-245). -/
def parse_comments_response (data : PyVal) : Except PyErr CommentsResponse := do
  let resultRaw ← pyDictGet data "result" (.list [])
  let items ← pyIter resultRaw
  let comments ← parseList parse_comment items
  .ok { comments := comments, next_cursor := lastCursor comments }

/-- Embeds `parse_users_response` (types.py:248-258). -/
def parse_users_response (data : PyVal) : Except PyErr UsersResponse := do
  let resultRaw ← pyDictGet data "result" (.list [])
  let items ← pyIter resultRaw
  let users ← parseList parse_user items
  let extra ← pyDictGet data "extra" (.dict [])
  let total_count ← pyDictGet extra "total_count" (.int 0)
  let next_page ← nextPageOf extra
  .ok { users := users, total_count := total_count, next_page := next_page }

-- ## Well-formedness: sufficient shape conditions under which the dynamic
-- operations of each decoder cannot raise.

/-- A nested-object value (`image`, `user`, `next`, …) that is either falsy
(skipped by the walrus-`if` guard) or an actual dict. -/
def nestedDictOk (v : PyVal) : Bool := !v.truthy || v.isDict

/-- Attachments `parse_step` can scan without raising: dicts whose `image`
value, when the `url` key is absent, is falsy or a dict. -/
def wfAtt (a : PyVal) : Bool :=
  match a with
  | .dict afs => (lookupStr "url" afs).isSome || nestedDictOk (dictGot afs "image")
  | _ => false

/-- Holds when `v` can be iterated and every produced element satisfies `p`. -/
def iterAll (v : PyVal) (p : PyVal → Bool) : Bool :=
  match pyIter v with
  | .ok xs => xs.all p
  | .error _ => false

def wfImage (d : PyVal) : Bool := d.isDict

def wfIngredient (d : PyVal) : Bool := d.isDict

def wfStep (d : PyVal) : Bool :=
  match d with
  | .dict fs => iterAll (dictGotD fs "attachments" (.list [])) wfAtt
  | _ => false

def wfUser (d : PyVal) : Bool :=
  match d with
  | .dict fs => nestedDictOk (dictGot fs "image")
  | _ => false

def wfRecipe (d : PyVal) : Bool :=
  match d with
  | .dict fs =>
    nestedDictOk (dictGot fs "image") &&
    (!(dictGot fs "user").truthy || wfUser (dictGot fs "user")) &&
    iterAll (dictGotD fs "ingredients" (.list [])) wfIngredient &&
    iterAll (dictGotD fs "steps" (.list [])) wfStep
  | _ => false

def wfComment (d : PyVal) : Bool :=
  match d with
  | .dict fs =>
    (!(dictGot fs "user").truthy || wfUser (dictGot fs "user")) &&
    nestedDictOk (dictGot fs "image")
  | _ => false

/-- The `extra`/`links`/`next` envelope of the search and users responses:
`extra` (defaulted to `{}`) and `links` (defaulted to `{}`) must be dicts
and a truthy `next` must be a dict. -/
def wfEnvelope (fs : List (String × PyVal)) : Bool :=
  match dictGotD fs "extra" (.dict []) with
  | .dict efs =>
    (match dictGotD efs "links" (.dict []) with
     | .dict lfs => nestedDictOk (dictGot lfs "next")
     | _ => false)
  | _ => false

/-- A search-result item: a dict, well-formed as a recipe when carrying the
recipe tag. -/
def wfSearchItem (item : PyVal) : Bool :=
  match item with
  | .dict ifs =>
    !(pyEq (dictGot ifs "type") (.str "search_results/recipe")) || wfRecipe item
  | _ => false

def wfSearchResponse (d : PyVal) : Bool :=
  match d with
  | .dict fs =>
    iterAll (dictGotD fs "result" (.list [])) wfSearchItem && wfEnvelope fs
  | _ => false

def wfCommentsResponse (d : PyVal) : Bool :=
  match d with
  | .dict fs => iterAll (dictGotD fs "result" (.list [])) wfComment
  | _ => false

def wfUsersResponse (d : PyVal) : Bool :=
  match d with
  | .dict fs =>
    iterAll (dictGotD fs "result" (.list [])) wfUser && wfEnvelope fs
  | _ => false

-- ## API client (src/cookpad/client.py, src/cookpad/exceptions.py,
-- src/cookpad/constants.py)

/-- The upstream HTTP response as the client sees it: status code, raw body
text, and the result of `resp.json()` (`Option.none` when the body is not
valid JSON, in which case `resp.json()` raises). -/
structure HttpResponse where
  status_code : Int
  text : String
  json : Option PyVal

/-- The exception taxonomy of src/cookpad/exceptions.py: one constructor per
`CookpadError` subclass.  `AuthenticationError`, `NotFoundError`,
`RateLimitError` and `APIError` are distinct subclasses of the common base
`CookpadError`; here they are the four constructors of one inductive. -/
inductive CookpadError where
  | authenticationError (message : String)
  | notFoundError (message : String)
  | rateLimitError (message : String)
  | apiError (message : String) (status_code : Int)
deriving DecidableEq

/-- What a client operation can raise: a `CookpadError` from the status
triage, a JSON-decode failure from `resp.json()`, or a plain Python
exception from the decoding step (e.g. `KeyError` in `get_recipe`). -/
inductive RequestFailure where
  | api (e : CookpadError)
  | jsonDecode
  | py (e : PyErr)
deriving DecidableEq

/-- The response-handling phase of `Cookpad._request` (client.py:104-115):
status triage in source order (401, 404, 429, then any other ≥ 400), and
only on a non-error status the `resp.json()` call. -/
def Cookpad._request (path : String) (resp : HttpResponse) :
    Except RequestFailure PyVal :=
  if resp.status_code = 401 then
    .error (.api (.authenticationError "Authentication failed"))
  else if resp.status_code = 404 then
    .error (.api (.notFoundError ("Not found: " ++ path)))
  else if resp.status_code = 429 then
    .error (.api (.rateLimitError "Rate limit exceeded"))
  else if resp.status_code ≥ 400 then
    .error (.api (.apiError
      ("API error (" ++ toString resp.status_code ++ "): " ++ resp.text)
      resp.status_code))
  else
    match resp.json with
    | some v => .ok v
    | Option.none => .error .jsonDecode

/-- Embeds `SUPPORTED_SEARCH_TYPES` (constants.py:14-26). -/
def SUPPORTED_SEARCH_TYPES : String :=
  String.intercalate "," [
    "search_results/recipe",
    "search_results/visual_guides",
    "search_results/spelling_suggestion",
    "search_results/title",
    "search_results/add_recipe_prompt",
    "search_results/premium_recipe_carousel",
    "search_results/premium_recipe_promotion",
    "search_results/library_recipes",
    "search_results/delicious_ways",
    "search_results/popular_promo_recipe",
    "search_results/premium_banner"]

/-- Python `str(b).lower()` for a bool. -/
def pyBoolLower (b : Bool) : String := if b then "true" else "false"

/-- The query-parameter dict built by `Cookpad.search_recipes`
(client.py:133-148): the fixed entries in source order, then
`included_ingredients` / `excluded_ingredients` added only when the
corresponding string argument is truthy (non-empty). -/
def search_recipes_params (query : String) (page per_page : Int)
    (order : String) (must_have_cooksnaps : Bool) (minimum_cooksnaps : Int)
    (must_have_photo_in_steps : Bool)
    (included_ingredients excluded_ingredients : String) :
    List (String × PyVal) :=
  let params : List (String × PyVal) := [
    ("query", .str query),
    ("page", .int page),
    ("per_page", .int per_page),
    ("order", .str order),
    ("must_have_cooksnaps", .str (pyBoolLower must_have_cooksnaps)),
    ("minimum_number_of_cooksnaps", .int minimum_cooksnaps),
    ("must_have_photo_in_steps", .str (pyBoolLower must_have_photo_in_steps)),
    ("from_delicious_ways", .str "false"),
    ("search_source", .str "recipe.search.typed_query"),
    ("supported_types", .str SUPPORTED_SEARCH_TYPES)]
  let params :=
    if included_ingredients ≠ "" then
      params ++ [("included_ingredients", .str included_ingredients)]
    else params
  if excluded_ingredients ≠ "" then
    params ++ [("excluded_ingredients", .str excluded_ingredients)]
  else params

/-- The decoding phase of `Cookpad.get_recipe` (client.py:158):
`parse_recipe(data["result"])` — an unguarded subscript. -/
def get_recipe_decode (body : PyVal) : Except PyErr Recipe := do
  let r ← pySubscript body "result"
  parse_recipe r

/-- The decoding phase of `Cookpad.get_similar_recipes` (client.py:174):
`[parse_recipe(r) for r in data.get("result", [])]`. -/
def get_similar_recipes_decode (body : PyVal) : Except PyErr (List Recipe) := do
  let rs ← pyDictGet body "result" (.list [])
  let items ← pyIter rs
  parseList parse_recipe items

/-- Embeds `get_recipe` end to end: `_request` then the `result` subscript and
`parse_recipe`; a Python exception from decoding surfaces at the public
interface. -/
def get_recipe_op (path : String) (resp : HttpResponse) :
    Except RequestFailure Recipe :=
  match Cookpad._request path resp with
  | .ok body =>
    match get_recipe_decode body with
    | .ok r => .ok r
    | .error e => .error (.py e)
  | .error e => .error e

/-- Embeds `get_similar_recipes` end to end. -/
def get_similar_recipes_op (path : String) (resp : HttpResponse) :
    Except RequestFailure (List Recipe) :=
  match Cookpad._request path resp with
  | .ok body =>
    match get_similar_recipes_decode body with
    | .ok rs => .ok rs
    | .error e => .error (.py e)
  | .error e => .error e

-- ## Transport-handle lifecycle (client.py:68-98)

/-- Abstract state of one `Cookpad` instance: the current transport handle
(`self._client`, `Option.none` when unset), a supply of fresh handle
identities, and the set of handles closed so far (`aclose` calls). -/
structure ClientState where
  handle : Option Nat
  nextId : Nat
  closed : List Nat

/-- A freshly constructed client: `self._client = None` (client.py:68). -/
def initState : ClientState :=
  { handle := Option.none, nextId := 0, closed := [] }

/-- Embeds `__aenter__` (client.py:70-72): unconditionally creates a fresh
transport handle. -/
def aenter (s : ClientState) : ClientState :=
  { handle := some s.nextId, nextId := s.nextId + 1, closed := s.closed }

/-- Embeds `__aexit__` (client.py:74-77): `if self._client: await
self._client.aclose(); self._client = None` — closes and clears the handle
when one exists, does nothing otherwise. -/
def aexit (s : ClientState) : ClientState :=
  match s.handle with
  | some h => { handle := Option.none, nextId := s.nextId, closed := s.closed ++ [h] }
  | Option.none => s

/-- The lazy-acquisition prologue of `_request` (client.py:97-98):
`if self._client is None: self._client = httpx.AsyncClient()`. -/
def ensureClient (s : ClientState) : ClientState :=
  match s.handle with
  | some _ => s
  | Option.none => { handle := some s.nextId, nextId := s.nextId + 1, closed := s.closed }

inductive ClientEvent where
  | enter
  | exit
  | request

def stepClient (s : ClientState) : ClientEvent → ClientState
  | .enter => aenter s
  | .exit => aexit s
  | .request => ensureClient s

def runClient (s : ClientState) : List ClientEvent → ClientState
  | [] => s
  | e :: es => runClient (stepClient s e) es

/-- Reachable-state invariant: every closed handle identity was issued
earlier than the supply counter, so the next issued handle is never an
already-closed one, and the live handle (when set) is not closed. -/
def ClientInv (s : ClientState) : Prop :=
  (∀ h ∈ s.closed, h < s.nextId) ∧
  (∀ h, s.handle = some h → h < s.nextId ∧ h ∉ s.closed)

-- ## Search-filter correspondence predicate

/-- The recipe-card test of the list comprehension
(`item.get("type") == "search_results/recipe"`), as a pure predicate on
dict items. -/
def pyTypeIsRecipe (item : PyVal) : Bool :=
  match item with
  | .dict ifs => pyEq (dictGot ifs "type") (.str "search_results/recipe")
  | _ => false

-- ## Pagination contract

/-- The pagination contract: when the full `extra.links.next.page` path is
present (as nested objects with an integer page) the page number surfaces;
when any key along the path is absent the result is `None`. -/
def NextPageSpec (fs : List (String × PyVal)) (np : PyVal) : Prop :=
  (∀ efs lfs nfs n, lookupStr "extra" fs = some (.dict efs) →
     lookupStr "links" efs = some (.dict lfs) →
     lookupStr "next" lfs = some (.dict nfs) →
     lookupStr "page" nfs = some (.int n) → np = .int n) ∧
  (lookupStr "extra" fs = Option.none → np = PyVal.none) ∧
  (∀ efs, lookupStr "extra" fs = some (.dict efs) →
     lookupStr "links" efs = Option.none → np = PyVal.none) ∧
  (∀ efs lfs, lookupStr "extra" fs = some (.dict efs) →
     lookupStr "links" efs = some (.dict lfs) →
     lookupStr "next" lfs = Option.none → np = PyVal.none) ∧
  (∀ efs lfs nfs, lookupStr "extra" fs = some (.dict efs) →
     lookupStr "links" efs = some (.dict lfs) →
     lookupStr "next" lfs = some (.dict nfs) →
     lookupStr "page" nfs = Option.none → np = PyVal.none)

-- ## Concrete fixtures used by witnesses

/-- The four-item mixed-kind search listing from the end-to-end scenario of
the specification (two recipe cards, a banner and a title separator). -/
def searchFixtureItems : List PyVal :=
  [.dict [("type", .str "search_results/premium_banner"), ("result", .list [])],
   .dict [("type", .str "search_results/title"), ("title", .str "sep")],
   .dict [("type", .str "search_results/recipe"), ("id", .int 1), ("title", .str "A")],
   .dict [("type", .str "search_results/recipe"), ("id", .int 2), ("title", .str "B")]]

def searchFixture : List (String × PyVal) :=
  [("result", .list searchFixtureItems),
   ("extra", .dict [("total_count", .int 10),
                    ("links", .dict [("next", .dict [("page", .int 2)])])])]

/-- The two-comment listing with distinct cursors, from the testable
properties of the spec. -/
def commentsFixture : List (String × PyVal) :=
  [("result", .list
    [.dict [("id", .int 1), ("cursor", .str "cur1")],
     .dict [("id", .int 2), ("cursor", .str "cur2")]])]

def usersFixture : List (String × PyVal) :=
  [("result", .list []),
   ("extra", .dict [("links", .dict [("next", .dict [("page", .int 2)])])])]

def usersFixtureNoLinks : List (String × PyVal) :=
  [("result", .list []), ("extra", .dict [("total_count", .int 0)])]

-- ## Lemma toolkit

@[simp]
theorem exceptBind_ok (a : α) (f : α → Except PyErr β) :
    (Except.ok a >>= f : Except PyErr β) = f a := rfl

@[simp]
theorem exceptBind_error (e : PyErr) (f : α → Except PyErr β) :
    (Except.error e >>= f : Except PyErr β) = .error e := rfl

@[simp]
theorem pyDictGet_dict (fs : List (String × PyVal)) (k : String) (dflt : PyVal) :
    pyDictGet (.dict fs) k dflt = .ok (dictGotD fs k dflt) := rfl

@[simp]
theorem pyGet_dict (fs : List (String × PyVal)) (k : String) :
    pyGet (.dict fs) k = .ok (dictGot fs k) := rfl

theorem parse_user_ok (fs : List (String × PyVal)) (u : User) :
    parse_user (.dict fs) = .ok u ↔
      ∃ iu, nestedUrl (dictGot fs "image") = .ok iu ∧
        u = { id := dictGotD fs "id" (.int 0),
              name := dictGotD fs "name" (.str ""),
              profile_message := pyOr (dictGotD fs "profile_message" (.str "")) (.str ""),
              image_url := iu,
              recipe_count := dictGotD fs "recipe_count" (.int 0),
              follower_count := dictGotD fs "follower_count" (.int 0),
              followee_count := dictGotD fs "followee_count" (.int 0),
              cookpad_id := dictGotD fs "cookpad_id" (.str ""),
              href := dictGotD fs "href" (.str "") } := by
  unfold parse_user
  cases h : nestedUrl (dictGot fs "image") with
  | ok iu => simp [h, eq_comm]
  | error e => simp [h]

theorem parse_image_dict (fs : List (String × PyVal)) :
    parse_image (.dict fs) =
      .ok { url := dictGotD fs "url" (.str ""),
            id := pyStr (dictGotD fs "id" (.str "")),
            filename := dictGotD fs "filename" (.str ""),
            alt_text := dictGot fs "alt_text" } := rfl

theorem parse_ingredient_dict (fs : List (String × PyVal)) :
    parse_ingredient (.dict fs) =
      .ok { name := dictGotD fs "name" (.str ""),
            quantity := dictGotD fs "quantity" (.str ""),
            id := dictGotD fs "id" (.int 0),
            headline := dictGotD fs "headline" (.bool false),
            sanitized_name := dictGotD fs "sanitized_name" (.str "") } := rfl

theorem parse_step_ok (fs : List (String × PyVal)) (s : Step) :
    parse_step (.dict fs) = .ok s ↔
      ∃ items iu, pyIter (dictGotD fs "attachments" (.list [])) = .ok items ∧
        stepScan items = .ok iu ∧
        s = { description := dictGotD fs "description" (.str ""),
              id := dictGotD fs "id" (.int 0), image_url := iu } := by
  unfold parse_step
  cases h1 : pyIter (dictGotD fs "attachments" (.list [])) with
  | ok items =>
    cases h2 : stepScan items with
    | ok iu => simp [h1, h2, eq_comm]
    | error e => simp [h1, h2]
  | error e => simp [h1]

theorem parse_comment_ok (fs : List (String × PyVal)) (c : Comment) :
    parse_comment (.dict fs) = .ok c ↔
      ∃ ou iu, optNested parse_user (dictGot fs "user") = .ok ou ∧
        nestedUrl (dictGot fs "image") = .ok iu ∧
        c = { id := dictGotD fs "id" (.int 0),
              body := dictGotD fs "body" (.str ""),
              created_at := dictGotD fs "created_at" (.str ""),
              label := dictGotD fs "label" (.str ""),
              user := ou, image_url := iu,
              cursor := dictGotD fs "cursor" (.str ""),
              likes_count := dictGotD fs "likes_count" (.int 0),
              replies_count := dictGotD fs "replies_count" (.int 0) } := by
  unfold parse_comment
  cases h1 : optNested parse_user (dictGot fs "user") with
  | ok ou =>
    cases h2 : nestedUrl (dictGot fs "image") with
    | ok iu => simp [h1, h2, eq_comm]
    | error e => simp [h1, h2]
  | error e => simp [h1]

set_option maxRecDepth 4000 in
theorem parse_recipe_ok (fs : List (String × PyVal)) (r : Recipe) :
    parse_recipe (.dict fs) = .ok r ↔
      ∃ iu ou ingrItems ingredients stepItems steps,
        nestedUrl (dictGot fs "image") = .ok iu ∧
        optNested parse_user (dictGot fs "user") = .ok ou ∧
        pyIter (dictGotD fs "ingredients" (.list [])) = .ok ingrItems ∧
        parseList parse_ingredient ingrItems = .ok ingredients ∧
        pyIter (dictGotD fs "steps" (.list [])) = .ok stepItems ∧
        parseList parse_step stepItems = .ok steps ∧
        r = { id := dictGotD fs "id" (.int 0),
              title := dictGotD fs "title" (.str ""),
              story := pyOr (dictGotD fs "story" (.str "")) (.str ""),
              serving := pyOr (dictGotD fs "serving" (.str "")) (.str ""),
              cooking_time := dictGot fs "cooking_time",
              published_at := dictGotD fs "published_at" (.str ""),
              hall_of_fame := dictGotD fs "hall_of_fame" (.bool false),
              cooksnaps_count := dictGotD fs "cooksnaps_count" (.int 0),
              image_url := iu, ingredients := ingredients, user := ou,
              advice := pyOr (dictGotD fs "advice" (.str "")) (.str ""),
              bookmarks_count := dictGotD fs "bookmarks_count" (.int 0),
              view_count := dictGotD fs "view_count" (.int 0),
              comments_count := dictGotD fs "comments_count" (.int 0),
              steps := steps, href := dictGotD fs "href" (.str ""),
              country := dictGotD fs "country" (.str ""),
              language := dictGotD fs "language" (.str ""),
              premium := dictGotD fs "premium" (.bool false) } := by
  unfold parse_recipe
  cases h1 : nestedUrl (dictGot fs "image") with
  | ok iu =>
    cases h2 : optNested parse_user (dictGot fs "user") with
    | ok ou =>
      cases h3 : pyIter (dictGotD fs "ingredients" (.list [])) with
      | ok ingrItems =>
        cases h4 : parseList parse_ingredient ingrItems with
        | ok ingredients =>
          cases h5 : pyIter (dictGotD fs "steps" (.list [])) with
          | ok stepItems =>
            cases h6 : parseList parse_step stepItems with
            | ok steps => simp [h1, h2, h3, h4, h5, h6, eq_comm]
            | error e => simp [h1, h2, h3, h4, h5, h6]
          | error e => simp [h1, h2, h3, h4, h5]
        | error e => simp [h1, h2, h3, h4]
      | error e => simp [h1, h2, h3]
    | error e => simp [h1, h2]
  | error e => simp [h1]

theorem parse_search_response_ok (fs : List (String × PyVal)) (r : SearchResponse) :
    parse_search_response (.dict fs) = .ok r ↔
      ∃ items recipes tc np,
        pyIter (dictGotD fs "result" (.list [])) = .ok items ∧
        searchFilter items = .ok recipes ∧
        pyDictGet (dictGotD fs "extra" (.dict [])) "total_count" (.int 0) = .ok tc ∧
        nextPageOf (dictGotD fs "extra" (.dict [])) = .ok np ∧
        r = { recipes := recipes, total_count := tc, next_page := np,
              raw := .dict fs } := by
  unfold parse_search_response
  cases h1 : pyIter (dictGotD fs "result" (.list [])) with
  | ok items =>
    cases h2 : searchFilter items with
    | ok recipes =>
      cases h3 : pyDictGet (dictGotD fs "extra" (.dict [])) "total_count" (.int 0) with
      | ok tc =>
        cases h4 : nextPageOf (dictGotD fs "extra" (.dict [])) with
        | ok np => simp [h1, h2, h3, h4, eq_comm]
        | error e => simp [h1, h2, h3, h4]
      | error e => simp [h1, h2, h3]
    | error e => simp [h1, h2]
  | error e => simp [h1]

theorem parse_comments_response_ok (fs : List (String × PyVal)) (r : CommentsResponse) :
    parse_comments_response (.dict fs) = .ok r ↔
      ∃ items comments,
        pyIter (dictGotD fs "result" (.list [])) = .ok items ∧
        parseList parse_comment items = .ok comments ∧
        r = { comments := comments, next_cursor := lastCursor comments } := by
  unfold parse_comments_response
  cases h1 : pyIter (dictGotD fs "result" (.list [])) with
  | ok items =>
    cases h2 : parseList parse_comment items with
    | ok comments => simp [h1, h2, eq_comm]
    | error e => simp [h1, h2]
  | error e => simp [h1]

theorem parse_users_response_ok (fs : List (String × PyVal)) (r : UsersResponse) :
    parse_users_response (.dict fs) = .ok r ↔
      ∃ items users tc np,
        pyIter (dictGotD fs "result" (.list [])) = .ok items ∧
        parseList parse_user items = .ok users ∧
        pyDictGet (dictGotD fs "extra" (.dict [])) "total_count" (.int 0) = .ok tc ∧
        nextPageOf (dictGotD fs "extra" (.dict [])) = .ok np ∧
        r = { users := users, total_count := tc, next_page := np } := by
  unfold parse_users_response
  cases h1 : pyIter (dictGotD fs "result" (.list [])) with
  | ok items =>
    cases h2 : parseList parse_user items with
    | ok users =>
      cases h3 : pyDictGet (dictGotD fs "extra" (.dict [])) "total_count" (.int 0) with
      | ok tc =>
        cases h4 : nextPageOf (dictGotD fs "extra" (.dict [])) with
        | ok np => simp [h1, h2, h3, h4, eq_comm]
        | error e => simp [h1, h2, h3, h4]
      | error e => simp [h1, h2, h3]
    | error e => simp [h1, h2]
  | error e => simp [h1]

-- ## Totality lemmas

theorem nestedUrl_total (v : PyVal) (h : nestedDictOk v) :
    ∃ x, nestedUrl v = .ok x := by
  unfold nestedUrl
  cases hv : v.truthy with
  | false => exact ⟨.none, by simp [hv]⟩
  | true =>
    simp [nestedDictOk, hv] at h
    cases v with
    | dict fs => exact ⟨dictGot fs "url", by simp [hv]⟩
    | none => simp [PyVal.isDict] at h
    | str s => simp [PyVal.isDict] at h
    | int n => simp [PyVal.isDict] at h
    | bool b => simp [PyVal.isDict] at h
    | list xs => simp [PyVal.isDict] at h

theorem parse_image_total (d : PyVal) (h : wfImage d) :
    ∃ i, parse_image d = .ok i := by
  cases d with
  | dict fs => exact ⟨_, parse_image_dict fs⟩
  | none => simp [wfImage, PyVal.isDict] at h
  | str s => simp [wfImage, PyVal.isDict] at h
  | int n => simp [wfImage, PyVal.isDict] at h
  | bool b => simp [wfImage, PyVal.isDict] at h
  | list xs => simp [wfImage, PyVal.isDict] at h

theorem parse_ingredient_total (d : PyVal) (h : wfIngredient d) :
    ∃ i, parse_ingredient d = .ok i := by
  cases d with
  | dict fs => exact ⟨_, parse_ingredient_dict fs⟩
  | none => simp [wfIngredient, PyVal.isDict] at h
  | str s => simp [wfIngredient, PyVal.isDict] at h
  | int n => simp [wfIngredient, PyVal.isDict] at h
  | bool b => simp [wfIngredient, PyVal.isDict] at h
  | list xs => simp [wfIngredient, PyVal.isDict] at h

theorem isDict_exists (v : PyVal) (h : v.isDict) : ∃ fs, v = .dict fs := by
  cases v with
  | dict fs => exact ⟨fs, rfl⟩
  | none => simp [PyVal.isDict] at h
  | str s => simp [PyVal.isDict] at h
  | int n => simp [PyVal.isDict] at h
  | bool b => simp [PyVal.isDict] at h
  | list xs => simp [PyVal.isDict] at h

theorem stepScan_total (atts : List PyVal) (h : ∀ a ∈ atts, wfAtt a) :
    ∃ v, stepScan atts = .ok v := by
  induction atts with
  | nil => exact ⟨.none, rfl⟩
  | cons a rest ih =>
    have ha : wfAtt a := h a (List.mem_cons_self a rest)
    have hrest : ∀ x ∈ rest, wfAtt x := fun x hx => h x (List.mem_cons_of_mem a hx)
    cases a with
    | dict afs =>
      cases hurl : (lookupStr "url" afs).isSome with
      | true =>
        rcases Option.isSome_iff_exists.mp hurl with ⟨x, hx⟩
        exact ⟨x, by simp [stepScan, pyContains, hurl, pySubscript, hx]⟩
      | false =>
        simp only [wfAtt, hurl, Bool.false_or] at ha
        cases htr : (dictGot afs "image").truthy with
        | false =>
          rcases ih hrest with ⟨v, hv⟩
          exact ⟨v, by simp [stepScan, pyContains, hurl, htr, hv]⟩
        | true =>
          have hd : (dictGot afs "image").isDict := by
            simp [nestedDictOk, htr] at ha
            exact ha
          rcases isDict_exists _ hd with ⟨ifs, hifs⟩
          have htr2 : (PyVal.dict ifs).truthy = true := hifs ▸ htr
          refine ⟨dictGot ifs "url", ?_⟩
          simp [stepScan, pyContains, hurl, htr, hifs, htr2]
    | none => simp [wfAtt] at ha
    | str s => simp [wfAtt] at ha
    | int n => simp [wfAtt] at ha
    | bool b => simp [wfAtt] at ha
    | list xs => simp [wfAtt] at ha

theorem iterAll_exists (v : PyVal) (p : PyVal → Bool) (h : iterAll v p) :
    ∃ xs, pyIter v = .ok xs ∧ ∀ x ∈ xs, p x := by
  unfold iterAll at h
  cases hv : pyIter v with
  | ok xs =>
    rw [hv] at h
    exact ⟨xs, rfl, fun x hx => List.all_eq_true.mp h x hx⟩
  | error e => rw [hv] at h; exact absurd h (by simp)

theorem parse_step_total (d : PyVal) (h : wfStep d) :
    ∃ s, parse_step d = .ok s := by
  rcases isDict_exists d (by cases d <;> simp_all [wfStep, PyVal.isDict]) with ⟨fs, rfl⟩
  simp only [wfStep] at h
  rcases iterAll_exists _ _ h with ⟨items, hit, hall⟩
  rcases stepScan_total items hall with ⟨iu, hsc⟩
  exact ⟨_, (parse_step_ok fs _).mpr ⟨items, iu, hit, hsc, rfl⟩⟩

theorem parse_user_total (d : PyVal) (h : wfUser d) :
    ∃ u, parse_user d = .ok u := by
  rcases isDict_exists d (by cases d <;> simp_all [wfUser, PyVal.isDict]) with ⟨fs, rfl⟩
  simp only [wfUser] at h
  rcases nestedUrl_total _ h with ⟨iu, hiu⟩
  exact ⟨_, (parse_user_ok fs _).mpr ⟨iu, hiu, rfl⟩⟩

theorem optNested_total (p : PyVal → Except PyErr α) (v : PyVal)
    (h : v.truthy = true → ∃ a, p v = .ok a) :
    ∃ o, optNested p v = .ok o := by
  unfold optNested
  cases hv : v.truthy with
  | false => exact ⟨Option.none, by simp [hv]⟩
  | true =>
    rcases h hv with ⟨a, ha⟩
    exact ⟨some a, by simp [hv, ha]⟩

theorem parseList_total (f : PyVal → Except PyErr α) (xs : List PyVal)
    (h : ∀ x ∈ xs, ∃ a, f x = .ok a) :
    ∃ as, parseList f xs = .ok as := by
  induction xs with
  | nil => exact ⟨[], rfl⟩
  | cons x rest ih =>
    rcases h x (List.mem_cons_self x rest) with ⟨a, ha⟩
    rcases ih (fun y hy => h y (List.mem_cons_of_mem x hy)) with ⟨as, has⟩
    exact ⟨a :: as, by simp [parseList, ha, has]⟩

theorem parse_recipe_total (d : PyVal) (h : wfRecipe d) :
    ∃ r, parse_recipe d = .ok r := by
  rcases isDict_exists d (by cases d <;> simp_all [wfRecipe, PyVal.isDict]) with ⟨fs, rfl⟩
  simp only [wfRecipe, Bool.and_eq_true] at h
  obtain ⟨⟨⟨himg, huser⟩, hingr⟩, hsteps⟩ := h
  rcases nestedUrl_total _ himg with ⟨iu, hiu⟩
  rcases optNested_total parse_user (dictGot fs "user")
      (fun ht => parse_user_total _ (by
        rcases Bool.or_eq_true _ _ |>.mp huser with h1 | h1
        · rw [ht] at h1; exact absurd h1 (by simp)
        · exact h1)) with ⟨ou, hou⟩
  rcases iterAll_exists _ _ hingr with ⟨ingrItems, hii, halli⟩
  rcases parseList_total parse_ingredient ingrItems
      (fun x hx => parse_ingredient_total x (halli x hx)) with ⟨ingredients, hpi⟩
  rcases iterAll_exists _ _ hsteps with ⟨stepItems, hsi, halls⟩
  rcases parseList_total parse_step stepItems
      (fun x hx => parse_step_total x (halls x hx)) with ⟨steps, hps⟩
  exact ⟨_, (parse_recipe_ok fs _).mpr
    ⟨iu, ou, ingrItems, ingredients, stepItems, steps, hiu, hou, hii, hpi, hsi, hps, rfl⟩⟩

theorem parse_comment_total (d : PyVal) (h : wfComment d) :
    ∃ c, parse_comment d = .ok c := by
  rcases isDict_exists d (by cases d <;> simp_all [wfComment, PyVal.isDict]) with ⟨fs, rfl⟩
  simp only [wfComment, Bool.and_eq_true] at h
  obtain ⟨huser, himg⟩ := h
  rcases optNested_total parse_user (dictGot fs "user")
      (fun ht => parse_user_total _ (by
        rcases Bool.or_eq_true _ _ |>.mp huser with h1 | h1
        · rw [ht] at h1; exact absurd h1 (by simp)
        · exact h1)) with ⟨ou, hou⟩
  rcases nestedUrl_total _ himg with ⟨iu, hiu⟩
  exact ⟨_, (parse_comment_ok fs _).mpr ⟨ou, iu, hou, hiu, rfl⟩⟩

theorem searchFilter_total (items : List PyVal)
    (h : ∀ i ∈ items, wfSearchItem i) :
    ∃ rs, searchFilter items = .ok rs := by
  induction items with
  | nil => exact ⟨[], rfl⟩
  | cons item rest ih =>
    have hi : wfSearchItem item := h item (List.mem_cons_self item rest)
    have hrest := ih (fun x hx => h x (List.mem_cons_of_mem item hx))
    rcases isDict_exists item (by
      cases item <;> simp_all [wfSearchItem, PyVal.isDict]) with ⟨ifs, rfl⟩
    simp only [wfSearchItem] at hi
    rcases hrest with ⟨rs, hrs⟩
    cases htag : pyEq (dictGot ifs "type") (.str "search_results/recipe") with
    | false => exact ⟨rs, by simp [searchFilter, htag, hrs]⟩
    | true =>
      have hwf : wfRecipe (.dict ifs) := by
        rcases Bool.or_eq_true _ _ |>.mp hi with h1 | h1
        · rw [htag] at h1; exact absurd h1 (by simp)
        · exact h1
      rcases parse_recipe_total _ hwf with ⟨r, hr⟩
      exact ⟨r :: rs, by simp [searchFilter, htag, hr, hrs]⟩

theorem nextPageOf_total (extra : PyVal) (hextra : extra.isDict)
    (h : ∀ efs, extra = .dict efs →
      (match dictGotD efs "links" (.dict []) with
       | .dict lfs => nestedDictOk (dictGot lfs "next")
       | _ => false) = true) :
    ∃ np, nextPageOf extra = .ok np := by
  rcases isDict_exists extra hextra with ⟨efs, rfl⟩
  have h2 := h efs rfl
  cases hlinks : dictGotD efs "links" (.dict []) with
  | dict lfs =>
    rw [hlinks] at h2
    cases htr : (dictGot lfs "next").truthy with
    | false =>
      exact ⟨.none, by simp [nextPageOf, hlinks, htr]⟩
    | true =>
      have hd : (dictGot lfs "next").isDict := by
        simp [nestedDictOk, htr] at h2
        exact h2
      rcases isDict_exists _ hd with ⟨nfs, hnfs⟩
      have htr2 : (PyVal.dict nfs).truthy = true := hnfs ▸ htr
      exact ⟨dictGot nfs "page", by simp [nextPageOf, hlinks, hnfs, htr2]⟩
  | none => rw [hlinks] at h2; exact absurd h2 (by simp)
  | str s => rw [hlinks] at h2; exact absurd h2 (by simp)
  | int n => rw [hlinks] at h2; exact absurd h2 (by simp)
  | bool b => rw [hlinks] at h2; exact absurd h2 (by simp)
  | list xs => rw [hlinks] at h2; exact absurd h2 (by simp)

theorem wfEnvelope_parts (fs : List (String × PyVal)) (h : wfEnvelope fs) :
    (dictGotD fs "extra" (.dict [])).isDict = true ∧
    ∃ np, nextPageOf (dictGotD fs "extra" (.dict [])) = .ok np := by
  unfold wfEnvelope at h
  cases hextra : dictGotD fs "extra" (.dict []) with
  | dict efs =>
    rw [hextra] at h
    refine ⟨rfl, ?_⟩
    exact nextPageOf_total _ rfl (fun efs2 heq => by cases heq; exact h)
  | none => rw [hextra] at h; simp at h
  | str s => rw [hextra] at h; simp at h
  | int n => rw [hextra] at h; simp at h
  | bool b => rw [hextra] at h; simp at h
  | list xs => rw [hextra] at h; simp at h

theorem parse_search_response_total (d : PyVal) (h : wfSearchResponse d) :
    ∃ r, parse_search_response d = .ok r := by
  rcases isDict_exists d (by
    cases d <;> simp_all [wfSearchResponse, PyVal.isDict]) with ⟨fs, rfl⟩
  simp only [wfSearchResponse, Bool.and_eq_true] at h
  obtain ⟨hitems, henv⟩ := h
  rcases iterAll_exists _ _ hitems with ⟨items, hit, hall⟩
  rcases searchFilter_total items hall with ⟨recipes, hsf⟩
  obtain ⟨hextra, np, hnp⟩ := wfEnvelope_parts fs henv
  rcases isDict_exists _ hextra with ⟨efs, hefs⟩
  refine ⟨_, (parse_search_response_ok fs _).mpr
    ⟨items, recipes, dictGotD efs "total_count" (.int 0), np, hit, hsf, ?_, hnp, rfl⟩⟩
  rw [hefs]
  rfl

theorem parse_comments_response_total (d : PyVal) (h : wfCommentsResponse d) :
    ∃ r, parse_comments_response d = .ok r := by
  rcases isDict_exists d (by
    cases d <;> simp_all [wfCommentsResponse, PyVal.isDict]) with ⟨fs, rfl⟩
  simp only [wfCommentsResponse] at h
  rcases iterAll_exists _ _ h with ⟨items, hit, hall⟩
  rcases parseList_total parse_comment items
      (fun x hx => parse_comment_total x (hall x hx)) with ⟨comments, hpc⟩
  exact ⟨_, (parse_comments_response_ok fs _).mpr ⟨items, comments, hit, hpc, rfl⟩⟩

theorem parse_users_response_total (d : PyVal) (h : wfUsersResponse d) :
    ∃ r, parse_users_response d = .ok r := by
  rcases isDict_exists d (by
    cases d <;> simp_all [wfUsersResponse, PyVal.isDict]) with ⟨fs, rfl⟩
  simp only [wfUsersResponse, Bool.and_eq_true] at h
  obtain ⟨hitems, henv⟩ := h
  rcases iterAll_exists _ _ hitems with ⟨items, hit, hall⟩
  rcases parseList_total parse_user items
      (fun x hx => parse_user_total x (hall x hx)) with ⟨users, hpu⟩
  obtain ⟨hextra, np, hnp⟩ := wfEnvelope_parts fs henv
  rcases isDict_exists _ hextra with ⟨efs, hefs⟩
  refine ⟨_, (parse_users_response_ok fs _).mpr
    ⟨items, users, dictGotD efs "total_count" (.int 0), np, hit, hpu, ?_, hnp, rfl⟩⟩
  rw [hefs]
  rfl

theorem clientInv_init : ClientInv initState :=
  ⟨fun h hh => absurd hh (List.not_mem_nil h), fun h hh => by simp [initState] at hh⟩

theorem clientInv_step (s : ClientState) (e : ClientEvent) (hs : ClientInv s) :
    ClientInv (stepClient s e) := by
  obtain ⟨hc, hh⟩ := hs
  cases e with
  | enter =>
    refine ⟨fun h hmem => ?_, fun h heq => ?_⟩
    · exact Nat.lt_succ_of_lt (hc h hmem)
    · simp [stepClient, aenter] at heq
      subst heq
      exact ⟨Nat.lt_succ_self _, fun hmem => absurd (hc _ hmem) (Nat.lt_irrefl _)⟩
  | exit =>
    cases hcur : s.handle with
    | some h0 =>
      obtain ⟨hlt, hnot⟩ := hh h0 hcur
      refine ⟨fun h hmem => ?_, fun h heq => ?_⟩
      · simp [stepClient, aexit, hcur] at hmem ⊢
        rcases hmem with hm | hm
        · exact hc h hm
        · subst hm; exact hlt
      · simp [stepClient, aexit, hcur] at heq
    | none =>
      simpa [stepClient, aexit, hcur] using ⟨hc, hh⟩
  | request =>
    cases hcur : s.handle with
    | some h0 =>
      simpa [stepClient, ensureClient, hcur] using ⟨hc, hh⟩
    | none =>
      refine ⟨fun h hmem => ?_, fun h heq => ?_⟩
      · simp [stepClient, ensureClient, hcur] at hmem ⊢
        exact Nat.lt_succ_of_lt (hc h hmem)
      · simp [stepClient, ensureClient, hcur] at heq ⊢
        subst heq
        exact ⟨Nat.lt_succ_self _, fun hmem => absurd (hc _ hmem) (Nat.lt_irrefl _)⟩

theorem clientInv_run (s : ClientState) (hs : ClientInv s) (evs : List ClientEvent) :
    ClientInv (runClient s evs) := by
  induction evs generalizing s with
  | nil => exact hs
  | cons e es ih => exact ih _ (clientInv_step s e hs)

-- ## Search-filter correspondence

theorem searchFilter_filter (items : List PyVal) (h : ∀ i ∈ items, i.isDict) :
    searchFilter items = parseList parse_recipe (items.filter pyTypeIsRecipe) := by
  induction items with
  | nil => rfl
  | cons item rest ih =>
    have hd := h item (List.mem_cons_self item rest)
    have ih2 := ih (fun x hx => h x (List.mem_cons_of_mem item hx))
    rcases isDict_exists _ hd with ⟨ifs, rfl⟩
    cases htag : pyEq (dictGot ifs "type") (.str "search_results/recipe") with
    | true =>
      simp [searchFilter, htag, List.filter_cons, pyTypeIsRecipe, parseList, ih2]
    | false =>
      simp [searchFilter, htag, List.filter_cons, pyTypeIsRecipe, ih2]

-- ## Pagination spec lemma

theorem nextPageOf_spec (fs : List (String × PyVal)) (np : PyVal)
    (h : nextPageOf (dictGotD fs "extra" (.dict [])) = .ok np) :
    NextPageSpec fs np := by
  refine ⟨?_, ?_, ?_, ?_, ?_⟩
  · intro efs lfs nfs n he hl hn hp
    rw [dictGotD, he] at h
    simp only [Option.getD_some] at h
    have hne : nfs ≠ [] := by
      intro hnil
      rw [hnil] at hp
      simp [lookupStr] at hp
    simp [nextPageOf, dictGotD, hl, dictGot, hn, PyVal.truthy,
      List.isEmpty_eq_true, hne, pyGet, pyDictGet, hp] at h
    exact h.symm
  · intro he
    rw [dictGotD, he] at h
    simp [nextPageOf, dictGotD, dictGot, lookupStr, PyVal.truthy, pyGet, pyDictGet] at h
    exact h.symm
  · intro efs he hl
    rw [dictGotD, he] at h
    simp [nextPageOf, dictGotD, hl, dictGot, lookupStr, PyVal.truthy, pyGet, pyDictGet] at h
    exact h.symm
  · intro efs lfs he hl hn
    rw [dictGotD, he] at h
    simp [nextPageOf, dictGotD, hl, dictGot, hn, PyVal.truthy, pyGet, pyDictGet] at h
    exact h.symm
  · intro efs lfs nfs he hl hn hp
    rw [dictGotD, he] at h
    by_cases hne : nfs = []
    · subst hne
      simp [nextPageOf, dictGotD, hl, dictGot, hn, PyVal.truthy, pyGet, pyDictGet] at h
      exact h.symm
    · simp [nextPageOf, dictGotD, hl, dictGot, hn, PyVal.truthy,
        List.isEmpty_eq_true, hne, pyGet, pyDictGet, hp] at h
      exact h.symm

-- ## Claim C1

/-- C1 counterexample: in `parse_ingredient`, a key that is present with an
explicit null is returned by `data.get("name", "")` as the null itself, so
the decoded `name` field is `None`, not the `""` produced when the key is
absent — refuting "explicit null yields the same result as an absent key:
the field becomes the empty string". -/
theorem C1_counterexample :
    parse_ingredient (.dict [("name", PyVal.none)]) =
      .ok { name := PyVal.none, quantity := .str "", id := .int 0,
            headline := .bool false, sanitized_name := .str "" } ∧
    parse_ingredient (.dict []) =
      .ok { name := .str "", quantity := .str "", id := .int 0,
            headline := .bool false, sanitized_name := .str "" } ∧
    PyVal.none ≠ PyVal.str "" :=
  ⟨rfl, rfl, fun h => nomatch h⟩

/-- C1 amended: a missing plain string key defaults to `""`, but an
explicitly null value is stored as the null itself (shown for
`Ingredient.name`, `Ingredient.quantity`, `Comment.body`, `Recipe.title`,
`User.name`); `profile_message` is the exception whose null is coalesced to
`""`; the optional fields `alt_text` and `cooking_time` are none whether
missing or null. -/
theorem C1_defaults (fs : List (String × PyVal)) :
    (∀ i, parse_ingredient (.dict fs) = .ok i →
      (lookupStr "name" fs = Option.none → i.name = .str "") ∧
      (lookupStr "name" fs = some PyVal.none → i.name = PyVal.none) ∧
      (lookupStr "quantity" fs = Option.none → i.quantity = .str "") ∧
      (lookupStr "quantity" fs = some PyVal.none → i.quantity = PyVal.none)) ∧
    (∀ c, parse_comment (.dict fs) = .ok c →
      (lookupStr "body" fs = Option.none → c.body = .str "") ∧
      (lookupStr "body" fs = some PyVal.none → c.body = PyVal.none)) ∧
    (∀ r, parse_recipe (.dict fs) = .ok r →
      (lookupStr "title" fs = Option.none → r.title = .str "") ∧
      (lookupStr "title" fs = some PyVal.none → r.title = PyVal.none) ∧
      (lookupStr "cooking_time" fs = Option.none → r.cooking_time = PyVal.none) ∧
      (lookupStr "cooking_time" fs = some PyVal.none → r.cooking_time = PyVal.none)) ∧
    (∀ u, parse_user (.dict fs) = .ok u →
      (lookupStr "name" fs = Option.none → u.name = .str "") ∧
      (lookupStr "name" fs = some PyVal.none → u.name = PyVal.none) ∧
      (lookupStr "profile_message" fs = Option.none → u.profile_message = .str "") ∧
      (lookupStr "profile_message" fs = some PyVal.none → u.profile_message = .str "")) ∧
    (∀ im, parse_image (.dict fs) = .ok im →
      (lookupStr "alt_text" fs = Option.none → im.alt_text = PyVal.none) ∧
      (lookupStr "alt_text" fs = some PyVal.none → im.alt_text = PyVal.none)) := by
  refine ⟨?_, ?_, ?_, ?_, ?_⟩
  · intro i hi
    rw [parse_ingredient_dict] at hi
    injection hi with hi
    subst hi
    exact ⟨fun h => by simp [dictGotD, h], fun h => by simp [dictGotD, h],
      fun h => by simp [dictGotD, h], fun h => by simp [dictGotD, h]⟩
  · intro c hc
    rcases (parse_comment_ok fs c).mp hc with ⟨ou, iu, _, _, rfl⟩
    exact ⟨fun h => by simp [dictGotD, h], fun h => by simp [dictGotD, h]⟩
  · intro r hr
    rcases (parse_recipe_ok fs r).mp hr with ⟨iu, ou, a, b, c, d, _, _, _, _, _, _, rfl⟩
    exact ⟨fun h => by simp [dictGotD, h], fun h => by simp [dictGotD, h],
      fun h => by simp [dictGot, h], fun h => by simp [dictGot, h]⟩
  · intro u hu
    rcases (parse_user_ok fs u).mp hu with ⟨iu, _, rfl⟩
    refine ⟨fun h => by simp [dictGotD, h], fun h => by simp [dictGotD, h],
      fun h => ?_, fun h => ?_⟩
    · simp [dictGotD, h, pyOr, PyVal.truthy]
    · simp [dictGotD, h, pyOr, PyVal.truthy]
  · intro im him
    rw [parse_image_dict] at him
    injection him with him
    subst him
    exact ⟨fun h => by simp [dictGot, h], fun h => by simp [dictGot, h]⟩

/-- C1 amended, witnessed at concrete inputs. -/
theorem C1_defaults_witness :
    ∃ i u, parse_ingredient (.dict [("name", PyVal.none)]) = .ok i ∧
      i.name = PyVal.none ∧
      parse_user (.dict [("profile_message", PyVal.none)]) = .ok u ∧
      u.profile_message = .str "" := by
  refine ⟨_, _, rfl, ?_, rfl, ?_⟩
  · exact (((C1_defaults [("name", PyVal.none)]).1 _ rfl).2.1) rfl
  · exact (((C1_defaults [("profile_message", PyVal.none)]).2.2.2.1 _ rfl).2.2.2) rfl

-- ## Claim C2

/-- C2 counterexample: a payload whose `attachments` key is explicitly null
makes `decode_step` iterate over `None`, raising `TypeError` — refuting
"returns an entity and never raises" for such inputs. -/
theorem C2_counterexample :
    parse_step (.dict [("attachments", PyVal.none)]) =
      .error (.typeError "not iterable") ∧
    ∀ s, parse_step (.dict [("attachments", PyVal.none)]) ≠ .ok s :=
  ⟨rfl, fun _ h => nomatch h⟩

/-- C2 amended: every decode function returns an entity (never raises) for
every JSON object whose composite fields have the shapes the decoder
dereferences: iterable `attachments`/`ingredients`/`steps`/`result` values
with object-shaped elements, and object-shaped (or falsy, hence skipped)
nested `image`/`user`/`extra`/`links`/`next` values.  Outside these shapes
— e.g. an explicitly null list key, or a truthy non-object nested value —
the decoder raises instead of defaulting. -/
theorem C2_totality (d : PyVal) :
    (wfImage d → ∃ x, parse_image d = .ok x) ∧
    (wfIngredient d → ∃ x, parse_ingredient d = .ok x) ∧
    (wfStep d → ∃ x, parse_step d = .ok x) ∧
    (wfUser d → ∃ x, parse_user d = .ok x) ∧
    (wfRecipe d → ∃ x, parse_recipe d = .ok x) ∧
    (wfComment d → ∃ x, parse_comment d = .ok x) ∧
    (wfSearchResponse d → ∃ x, parse_search_response d = .ok x) ∧
    (wfCommentsResponse d → ∃ x, parse_comments_response d = .ok x) ∧
    (wfUsersResponse d → ∃ x, parse_users_response d = .ok x) :=
  ⟨parse_image_total d, parse_ingredient_total d, parse_step_total d,
   parse_user_total d, parse_recipe_total d, parse_comment_total d,
   parse_search_response_total d, parse_comments_response_total d,
   parse_users_response_total d⟩

/-- C2 amended, witnessed at a concrete well-shaped payload. -/
theorem C2_totality_witness :
    ∃ x, parse_step (.dict [("attachments",
      .list [.dict [("url", .str "u")]]), ("description", .str "Fry")]) = .ok x :=
  (C2_totality _).2.2.1 rfl

-- ## Claim C3

/-- C3 counterexample: with a two-attachment list where the first attachment
has a truthy `image` object that lacks `url` and the second has a direct
`url`, the scan stops at the first attachment and yields `None` instead of
the URL of the second attachment — refuting "the first attachment whose nested
image object has a url wins" and the claimed two-attachment instance. -/
theorem C3_counterexample :
    parse_step (.dict [("attachments", .list
      [.dict [("image", .dict [("id", .int 1)])],
       .dict [("url", .str "x")]])]) =
      .ok { description := .str "", id := .int 0, image_url := PyVal.none } ∧
    PyVal.none ≠ PyVal.str "x" :=
  ⟨rfl, fun h => nomatch h⟩

/-- C3 amended: the scan is first-match-wins and linear, but the second rule
fires on the first attachment with a *truthy* `image` value — contributing
`image.get("url")`, possibly none, and stopping there even when that image
lacks `url`; the result is none when no attachment has a `url` key or a
truthy `image` (including the empty list); the claimed two-attachment
instance holds when the first attachment has no `url` key and no truthy
`image`. -/
theorem C3_step_scan (afs : List (String × PyVal)) (rest : List PyVal) :
    (stepScan [] = .ok PyVal.none) ∧
    (∀ v, lookupStr "url" afs = some v →
      stepScan (.dict afs :: rest) = .ok v) ∧
    (lookupStr "url" afs = Option.none → ¬(dictGot afs "image").truthy →
      stepScan (.dict afs :: rest) = stepScan rest) ∧
    (∀ ifs, lookupStr "url" afs = Option.none →
      dictGot afs "image" = .dict ifs → (PyVal.dict ifs).truthy →
      stepScan (.dict afs :: rest) = .ok (dictGot ifs "url")) ∧
    (∀ atts, (∀ a ∈ atts, ∃ afs2, a = .dict afs2 ∧
        lookupStr "url" afs2 = Option.none ∧ ¬(dictGot afs2 "image").truthy) →
      stepScan atts = .ok PyVal.none) ∧
    (∀ fs s, parse_step (.dict fs) = .ok s →
      ∃ items, pyIter (dictGotD fs "attachments" (.list [])) = .ok items ∧
        stepScan items = .ok s.image_url) := by
  refine ⟨rfl, ?_, ?_, ?_, ?_, ?_⟩
  · intro v hv
    simp [stepScan, pyContains, hv, pySubscript]
  · intro hurl htr
    simp [stepScan, pyContains, hurl, htr]
  · intro ifs hurl himg htr
    simp [stepScan, pyContains, hurl, himg, htr]
  · intro atts hall
    induction atts with
    | nil => rfl
    | cons a tail ih =>
      rcases hall a (List.mem_cons_self a tail) with ⟨afs2, rfl, hurl, htr⟩
      rw [show stepScan (PyVal.dict afs2 :: tail) = stepScan tail by
        simp [stepScan, pyContains, hurl, htr]]
      exact ih (fun x hx => hall x (List.mem_cons_of_mem _ hx))
  · intro fs s hs
    rcases (parse_step_ok fs s).mp hs with ⟨items, iu, hit, hsc, rfl⟩
    exact ⟨items, hit, hsc⟩

/-- C3 amended, witnessed: the order-sensitive two-attachment instance with
a qualifying second attachment, and the first-rule immediate win. -/
theorem C3_step_scan_witness :
    stepScan [.dict [], .dict [("url", .str "x")]] = .ok (.str "x") ∧
    stepScan [.dict [("url", .str "a")], .dict [("url", .str "b")]] = .ok (.str "a") := by
  constructor
  · rw [(C3_step_scan [] [.dict [("url", .str "x")]]).2.2.1 rfl (by simp [dictGot, lookupStr, PyVal.truthy])]
    exact (C3_step_scan [("url", .str "x")] []).2.1 (.str "x") rfl
  · exact (C3_step_scan [("url", .str "a")] [.dict [("url", .str "b")]]).2.1 (.str "a") rfl

-- ## Claim C4

/-- C4: whenever `decode_search_response` returns, its `recipes` are exactly
the parses of the result-list items tagged `search_results/recipe`, in
original order (the filtered sublist), all other item kinds being dropped;
the returned `raw` is the original input; and a payload whose result items
are all objects — only the recipe-tagged ones needing recipe shape — always
decodes without error, so dropped kinds never cause a failure. -/
theorem C4_recipe_extraction :
    (∀ fs r, parse_search_response (.dict fs) = .ok r →
      r.raw = .dict fs ∧
      ∀ items, pyIter (dictGotD fs "result" (.list [])) = .ok items →
        (∀ i ∈ items, i.isDict) →
        parseList parse_recipe (items.filter pyTypeIsRecipe) = .ok r.recipes) ∧
    (∀ d, wfSearchResponse d → ∃ r, parse_search_response d = .ok r) := by
  constructor
  · intro fs r hr
    rcases (parse_search_response_ok fs r).mp hr with
      ⟨items0, recipes, tc, np, hit0, hsf, htc, hnp, rfl⟩
    refine ⟨rfl, fun items hit hdict => ?_⟩
    rw [hit0] at hit
    injection hit with hit
    subst hit
    rw [← searchFilter_filter items0 hdict]
    exact hsf
  · exact fun d => parse_search_response_total d

/-- C4, witnessed on the four-item mixed-kind listing of the spec: two
recipe cards among four items yield exactly two recipes, order preserved,
and `raw` equals the input. -/
theorem C4_recipe_extraction_witness :
    ∃ r, parse_search_response (.dict searchFixture) = .ok r ∧
      r.raw = .dict searchFixture ∧
      parseList parse_recipe
        ((searchFixtureItems).filter pyTypeIsRecipe) = .ok r.recipes ∧
      r.recipes.length = 2 ∧
      (r.recipes.map Recipe.id) = [.int 1, .int 2] := by
  refine ⟨_, rfl, ?_⟩
  have h := (C4_recipe_extraction.1 searchFixture _ rfl).2 searchFixtureItems rfl
    (by intro i hi; fin_cases hi <;> rfl)
  exact ⟨(C4_recipe_extraction.1 searchFixture _ rfl).1, h, rfl, rfl⟩

-- ## Claim C5

/-- The cursor of the last comment when the list is nonempty and that cursor
truthy (helper equations for `lastCursor`). -/
theorem lastCursor_eq_none (comments : List Comment)
    (h : comments.getLast? = Option.none) : lastCursor comments = PyVal.none := by
  simp [lastCursor, h]

theorem lastCursor_eq_last (comments : List Comment) (c : Comment)
    (h : comments.getLast? = some c) :
    lastCursor comments = if c.cursor.truthy then c.cursor else PyVal.none := by
  simp [lastCursor, h]

/-- C5: whenever `decode_comments_response` returns, `next_cursor` is the
`cursor` of the last decoded comment when that cursor is truthy, and none
exactly when the list is empty or the last comment carries no (truthy)
cursor — missing cursors decode to `""` and explicit nulls to `None`, both
falsy; an explicitly empty result list yields an empty comments list and a
none cursor. -/
theorem C5_next_cursor (fs : List (String × PyVal)) (r : CommentsResponse)
    (h : parse_comments_response (.dict fs) = .ok r) :
    (r.comments = [] → r.next_cursor = PyVal.none) ∧
    (∀ c, r.comments.getLast? = some c →
      (c.cursor.truthy → r.next_cursor = c.cursor) ∧
      (¬c.cursor.truthy → r.next_cursor = PyVal.none)) ∧
    (r.next_cursor ≠ PyVal.none →
      ∃ c, r.comments.getLast? = some c ∧ c.cursor.truthy ∧
        r.next_cursor = c.cursor) ∧
    (dictGotD fs "result" (.list []) = .list [] →
      r.comments = [] ∧ r.next_cursor = PyVal.none) := by
  rcases (parse_comments_response_ok fs r).mp h with ⟨items, comments, hit, hpc, rfl⟩
  refine ⟨?_, ?_, ?_, ?_⟩
  · intro hnil
    have hc : comments = [] := hnil
    subst hc
    rfl
  · intro c hlast
    have hl := lastCursor_eq_last comments c hlast
    constructor
    · intro ht
      show lastCursor comments = c.cursor
      rw [hl, if_pos ht]
    · intro ht
      show lastCursor comments = PyVal.none
      rw [hl, if_neg ht]
  · intro hne
    have hne2 : lastCursor comments ≠ PyVal.none := hne
    cases hlast : comments.getLast? with
    | none => exact absurd (lastCursor_eq_none comments hlast) hne2
    | some c =>
      have hl := lastCursor_eq_last comments c hlast
      cases ht : c.cursor.truthy with
      | true =>
        refine ⟨c, rfl, ht, ?_⟩
        show lastCursor comments = c.cursor
        rw [hl, if_pos ht]
      | false =>
        exfalso
        exact hne2 (by rw [hl, if_neg (by simp [ht])])
  · intro hres
    rw [hres] at hit
    injection hit with hit
    subst hit
    simp only [parseList] at hpc
    injection hpc with hpc
    subst hpc
    exact ⟨rfl, rfl⟩

/-- C5 witnessed: the empty listing and the two-comment listing with
distinct cursors, whose `next_cursor` is the cursor of the last item. -/
theorem C5_next_cursor_witness :
    ∃ r0 r2, parse_comments_response (.dict [("result", .list [])]) = .ok r0 ∧
      r0.comments = [] ∧ r0.next_cursor = PyVal.none ∧
      parse_comments_response (.dict commentsFixture) = .ok r2 ∧
      r2.next_cursor = .str "cur2" := by
  refine ⟨_, _, rfl, ?_, ?_, rfl, ?_⟩
  · exact ((C5_next_cursor [("result", .list [])] _ rfl).2.2.2 rfl).1
  · exact ((C5_next_cursor [("result", .list [])] _ rfl).2.2.2 rfl).2
  · exact ((C5_next_cursor commentsFixture _ rfl).2.1 _ rfl).1 rfl

-- ## Claim C6

/-- C6: for both `decode_search_response` and `decode_users_response`, a
fully-present `extra.links.next.page` path with integer page surfaces that
integer as `next_page`, and the absence of any key along the path yields a
none `next_page`. -/
theorem C6_next_page :
    (∀ fs r, parse_search_response (.dict fs) = .ok r →
      NextPageSpec fs r.next_page) ∧
    (∀ fs r, parse_users_response (.dict fs) = .ok r →
      NextPageSpec fs r.next_page) := by
  constructor
  · intro fs r hr
    rcases (parse_search_response_ok fs r).mp hr with ⟨_, _, _, np, _, _, _, hnp, rfl⟩
    exact nextPageOf_spec fs np hnp
  · intro fs r hr
    rcases (parse_users_response_ok fs r).mp hr with ⟨_, _, _, np, _, _, _, hnp, rfl⟩
    exact nextPageOf_spec fs np hnp

/-- C6 witnessed: a users listing with `extra.links.next.page = 2` surfaces
`next_page = 2`; one whose `extra` lacks `links` yields none. -/
theorem C6_next_page_witness :
    ∃ r r2, parse_users_response (.dict usersFixture) = .ok r ∧
      r.next_page = .int 2 ∧
      parse_users_response (.dict usersFixtureNoLinks) = .ok r2 ∧
      r2.next_page = PyVal.none := by
  refine ⟨_, _, rfl, ?_, rfl, ?_⟩
  · exact (C6_next_page.2 usersFixture _ rfl).1 _ _ _ 2 rfl rfl rfl rfl
  · exact (C6_next_page.2 usersFixtureNoLinks _ rfl).2.2.1 _ rfl rfl

-- ## Claim C7

/-- C7: the status triage of `_request` (used by every client operation,
each passing its own path): 401 raises the authentication kind, 404 the
not-found kind with the requested path in the message, 429 the rate-limit
kind, any other status ≥ 400 the generic API kind carrying the status code
and raw body; the outcome for an error status is independent of whether the
body decodes as JSON (the error precedes `resp.json()`); and the four kinds —
the four constructors of the common base `CookpadError` — are pairwise
distinct. -/
theorem C7_status_triage (path : String) (resp : HttpResponse) :
    (resp.status_code = 401 →
      Cookpad._request path resp =
        .error (.api (.authenticationError "Authentication failed"))) ∧
    (resp.status_code = 404 →
      Cookpad._request path resp =
        .error (.api (.notFoundError ("Not found: " ++ path)))) ∧
    (resp.status_code = 429 →
      Cookpad._request path resp =
        .error (.api (.rateLimitError "Rate limit exceeded"))) ∧
    (resp.status_code ≥ 400 → resp.status_code ≠ 401 →
      resp.status_code ≠ 404 → resp.status_code ≠ 429 →
      Cookpad._request path resp =
        .error (.api (.apiError
          ("API error (" ++ toString resp.status_code ++ "): " ++ resp.text)
          resp.status_code))) ∧
    (resp.status_code ≥ 400 →
      Cookpad._request path resp =
        Cookpad._request path { resp with json := Option.none } ∧
      ∃ e, Cookpad._request path resp = .error (.api e)) ∧
    (∀ m m2 s, CookpadError.authenticationError m ≠ .notFoundError m2 ∧
      CookpadError.authenticationError m ≠ .rateLimitError m2 ∧
      CookpadError.authenticationError m ≠ .apiError m2 s ∧
      CookpadError.notFoundError m ≠ .rateLimitError m2 ∧
      CookpadError.notFoundError m ≠ .apiError m2 s ∧
      CookpadError.rateLimitError m ≠ .apiError m2 s) := by
  refine ⟨?_, ?_, ?_, ?_, ?_, ?_⟩
  · intro h
    simp [Cookpad._request, h]
  · intro h
    simp [Cookpad._request, h]
  · intro h
    simp [Cookpad._request, h]
  · intro h h1 h4 h9
    simp [Cookpad._request, h1, h4, h9, h]
  · intro h
    by_cases h1 : resp.status_code = 401
    · exact ⟨by simp [Cookpad._request, h1],
        .authenticationError "Authentication failed", by simp [Cookpad._request, h1]⟩
    · by_cases h4 : resp.status_code = 404
      · exact ⟨by simp [Cookpad._request, h1, h4],
          .notFoundError ("Not found: " ++ path), by simp [Cookpad._request, h1, h4]⟩
      · by_cases h9 : resp.status_code = 429
        · exact ⟨by simp [Cookpad._request, h1, h4, h9],
            .rateLimitError "Rate limit exceeded", by simp [Cookpad._request, h1, h4, h9]⟩
        · exact ⟨by simp [Cookpad._request, h1, h4, h9, h],
            .apiError ("API error (" ++ toString resp.status_code ++ "): " ++ resp.text)
              resp.status_code,
            by simp [Cookpad._request, h1, h4, h9, h]⟩
  · intro m m2 s
    refine ⟨?_, ?_, ?_, ?_, ?_, ?_⟩ <;> intro h <;> nomatch h

/-- C7 witnessed on concrete responses for the `get_recipe` path. -/
theorem C7_status_triage_witness :
    Cookpad._request "/recipes/1" ⟨404, "", Option.none⟩ =
      .error (.api (.notFoundError "Not found: /recipes/1")) ∧
    Cookpad._request "/recipes/1" ⟨401, "", Option.none⟩ =
      .error (.api (.authenticationError "Authentication failed")) ∧
    Cookpad._request "/recipes/1" ⟨429, "", Option.none⟩ =
      .error (.api (.rateLimitError "Rate limit exceeded")) ∧
    Cookpad._request "/recipes/1" ⟨500, "oops", Option.none⟩ =
      .error (.api (.apiError "API error (500): oops" 500)) := by
  refine ⟨?_, ?_, ?_, ?_⟩
  · exact (C7_status_triage "/recipes/1" ⟨404, "", Option.none⟩).2.1 rfl
  · exact (C7_status_triage "/recipes/1" ⟨401, "", Option.none⟩).1 rfl
  · exact (C7_status_triage "/recipes/1" ⟨429, "", Option.none⟩).2.2.1 rfl
  · exact (C7_status_triage "/recipes/1" ⟨500, "oops", Option.none⟩).2.2.2.1
      (by decide) (by decide) (by decide) (by decide)

-- ## Claim C8

/-- C8: in the parameter dict built by `search_recipes`, the
`included_ingredients` / `excluded_ingredients` keys are present iff the
corresponding argument is non-empty (carrying exactly that string), and the
two boolean arguments are serialized as the lowercase literals
`"true"`/`"false"`. -/
theorem C8_search_params (query : String) (page per_page : Int)
    (order : String) (mhc : Bool) (minc : Int) (mhp : Bool)
    (included_ingredients excluded_ingredients : String) :
    ((lookupStr "included_ingredients"
        (search_recipes_params query page per_page order mhc minc mhp
          included_ingredients excluded_ingredients)).isSome ↔
      included_ingredients ≠ "") ∧
    ((lookupStr "excluded_ingredients"
        (search_recipes_params query page per_page order mhc minc mhp
          included_ingredients excluded_ingredients)).isSome ↔
      excluded_ingredients ≠ "") ∧
    (included_ingredients ≠ "" →
      lookupStr "included_ingredients"
        (search_recipes_params query page per_page order mhc minc mhp
          included_ingredients excluded_ingredients) =
        some (.str included_ingredients)) ∧
    (excluded_ingredients ≠ "" →
      lookupStr "excluded_ingredients"
        (search_recipes_params query page per_page order mhc minc mhp
          included_ingredients excluded_ingredients) =
        some (.str excluded_ingredients)) ∧
    (lookupStr "must_have_cooksnaps"
        (search_recipes_params query page per_page order mhc minc mhp
          included_ingredients excluded_ingredients) =
      some (.str (pyBoolLower mhc))) ∧
    (lookupStr "must_have_photo_in_steps"
        (search_recipes_params query page per_page order mhc minc mhp
          included_ingredients excluded_ingredients) =
      some (.str (pyBoolLower mhp))) ∧
    pyBoolLower true = "true" ∧ pyBoolLower false = "false" := by
  by_cases hi : included_ingredients = "" <;>
    by_cases he : excluded_ingredients = "" <;>
    simp [search_recipes_params, hi, he, lookupStr] <;>
    exact ⟨rfl, rfl⟩

/-- C8 witnessed: a non-empty `included_ingredients` argument appears with
exactly its value. -/
theorem C8_search_params_witness :
    lookupStr "included_ingredients"
      (search_recipes_params "curry" 1 30 "recent" true 0 false "tomato" "") =
      some (.str "tomato") :=
  (C8_search_params "curry" 1 30 "recent" true 0 false "tomato" "").2.2.1
    (by decide)

-- ## Claim C9

/-- C9: lifecycle of the transport handle.  Scope entry creates a handle;
a request creates one lazily exactly when none exists, and reuses the
current one otherwise; scope exit closes and clears the current handle, and
is a no-op when no handle exists (release happens exactly once); and after
any event history followed by a scope exit, the next operation acquires a
fresh handle that was never closed — it cannot fail because of the prior
closure. -/
theorem C9_lifecycle :
    (∀ s, (aenter s).handle = some s.nextId) ∧
    (∀ s, s.handle = Option.none → (ensureClient s).handle = some s.nextId) ∧
    (∀ s h, s.handle = some h → ensureClient s = s) ∧
    (∀ s h, s.handle = some h →
      (aexit s).handle = Option.none ∧ (aexit s).closed = s.closed ++ [h]) ∧
    (∀ s, s.handle = Option.none → aexit s = s) ∧
    (∀ evs, ∃ h,
      (ensureClient (aexit (runClient initState evs))).handle = some h ∧
      h ∉ (aexit (runClient initState evs)).closed) := by
  refine ⟨fun s => rfl, ?_, ?_, ?_, ?_, ?_⟩
  · intro s hs
    simp [ensureClient, hs]
  · intro s h hs
    simp [ensureClient, hs]
  · intro s h hs
    simp [aexit, hs]
  · intro s hs
    simp [aexit, hs]
  · intro evs
    have hinv : ClientInv (aexit (runClient initState evs)) := by
      have h1 := clientInv_run initState clientInv_init evs
      have := clientInv_step (runClient initState evs) .exit h1
      simpa [stepClient] using this
    set t := aexit (runClient initState evs) with ht
    cases hcur : t.handle with
    | some h0 =>
      exact ⟨h0, by simp [ensureClient, hcur], (hinv.2 h0 hcur).2⟩
    | none =>
      refine ⟨t.nextId, by simp [ensureClient, hcur], fun hmem => ?_⟩
      exact absurd (hinv.1 t.nextId hmem) (Nat.lt_irrefl _)

/-- C9 witnessed: exiting a client whose handle is `0` clears and closes it
once, and a subsequent history `enter, request, exit` leaves the next
operation a fresh unclosed handle. -/
theorem C9_lifecycle_witness :
    ((aexit ⟨some 0, 1, []⟩).handle = Option.none ∧
      (aexit ⟨some 0, 1, []⟩).closed = [] ++ [0]) ∧
    ∃ h, (ensureClient (aexit (runClient initState
        [.enter, .request, .exit]))).handle = some h ∧
      h ∉ (aexit (runClient initState [.enter, .request, .exit])).closed :=
  ⟨C9_lifecycle.2.2.2.1 ⟨some 0, 1, []⟩ 0 rfl, C9_lifecycle.2.2.2.2.2 [.enter, .request, .exit]⟩

-- ## Claim C10

/-- C10: on a successful (status < 400) response whose JSON body lacks the
`result` key, `get_recipe` raises a `KeyError` at the public interface
(unguarded `data["result"]`), while `get_similar_recipes` returns the empty
list (`data.get("result", [])`). -/
theorem C10_result_key (path : String) (resp : HttpResponse)
    (bfs : List (String × PyVal)) (hst : resp.status_code < 400)
    (hj : resp.json = some (.dict bfs))
    (hres : lookupStr "result" bfs = Option.none) :
    get_recipe_op path resp = .error (.py (.keyError "result")) ∧
    get_similar_recipes_op path resp = .ok [] := by
  have h1 : resp.status_code ≠ 401 := by omega
  have h4 : resp.status_code ≠ 404 := by omega
  have h9 : resp.status_code ≠ 429 := by omega
  have hge : ¬(resp.status_code ≥ 400) := by omega
  have hreq : Cookpad._request path resp = .ok (.dict bfs) := by
    simp [Cookpad._request, h1, h4, h9, hge, hj]
  constructor
  · simp [get_recipe_op, hreq, get_recipe_decode, pySubscript, hres]
  · simp [get_similar_recipes_op, hreq, get_similar_recipes_decode,
      pyDictGet, dictGotD, hres, pyIter, parseList]

/-- C10 witnessed on a 200 response with an empty JSON object body. -/
theorem C10_result_key_witness :
    get_recipe_op "/recipes/1" ⟨200, "", some (.dict [])⟩ =
      .error (.py (.keyError "result")) ∧
    get_similar_recipes_op "/recipes/1/similar_recipes"
      ⟨200, "", some (.dict [])⟩ = .ok [] :=
  ⟨(C10_result_key "/recipes/1" ⟨200, "", some (.dict [])⟩ [] (by decide) rfl rfl).1,
   (C10_result_key "/recipes/1/similar_recipes" ⟨200, "", some (.dict [])⟩ []
      (by decide) rfl rfl).2⟩
